import Mathlib

/-
Shallow embedding of `main.py` (FastAPI wrapper around AWS Rekognition).

The application holds one piece of module-level state, the `rekognition`
client (None or a configured client), set once at import time from the
environment variables. Four endpoints exist: GET `/`, GET `/health`,
POST `/detect`, GET `/debug`. The vendor label-detection service is
modelled as an oracle function from requests to results; Python floats
are modelled as rationals; bytes as lists of naturals; exceptions as an
explicit error type threaded through `Except`.
-/

namespace Rekog

/-- Round a rational to the nearest integer, ties to even, modelling how
Python's builtin `round` resolves ties. -/
def roundHalfEven (q : ℚ) : ℤ :=
  let f : ℤ := Int.fdiv q.num (q.den : ℤ)
  let r : ℚ := q - (f : ℚ)
  if r < 1/2 then f
  else if 1/2 < r then f + 1
  else if f % 2 = 0 then f else f + 1

/-- Model of Python's `round(x, 2)`: round to two decimal places. -/
def round2 (q : ℚ) : ℚ := (roundHalfEven (q * 100) : ℚ) / 100

/-- One entry of a vendor label's `Categories` list. -/
structure Category where
  Name : String
  deriving DecidableEq

/-- One label in the vendor response: `Name`, `Confidence`, and the
optional `Categories` field (`none` models the key being absent, as in
`label.get("Categories", [])`). -/
structure RekLabel where
  Name : String
  Confidence : ℚ
  Categories : Option (List Category)
  deriving DecidableEq

/-- The request issued by `rekognition.detect_labels(...)`: the bytes of
`Image`, `MaxLabels` and `MinConfidence`. -/
structure VendorRequest where
  ImageBytes : List Nat
  MaxLabels : Nat
  MinConfidence : ℚ
  deriving DecidableEq

/-- What the vendor call can do: return labels, raise a botocore
`ClientError` with a code and a message, or raise some other exception. -/
inductive VendorResult where
  | ok (labels : List RekLabel)
  | clientError (code message : String)
  | otherError (message : String)
  deriving DecidableEq

/-- The uploaded file: `filename`, `content_type` (absent or a string),
and the bytes that `await file.read()` yields. -/
structure UploadFile where
  filename : String
  content_type : Option String
  content : List Nat
  deriving DecidableEq

/-- One formatted label of the `/detect` response body. -/
structure LabelOut where
  name : String
  confidence : ℚ
  categories : List String
  deriving DecidableEq

/-- The successful `/detect` response body. -/
structure DetectResponse where
  success : Bool
  filename : String
  labels_count : Nat
  labels : List LabelOut
  deriving DecidableEq

/-- The HTTP outcome of `/detect`: a 200 with a body, or an
`HTTPException` with a status code and a detail string. -/
inductive DetectResult where
  | ok (body : DetectResponse)
  | httpError (status : Nat) (detail : String)
  deriving DecidableEq

/-- The outcome of one `/detect` call together with its observable
side effects: whether `await file.read()` ran, and the list of requests
issued to the vendor service (in order). -/
structure DetectTrace where
  result : DetectResult
  fileRead : Bool
  requests : List VendorRequest
  deriving DecidableEq

/-- Exceptions that can escape the `try` block of `detect_labels`:
a fastapi `HTTPException`, a botocore `ClientError`, or anything else. -/
inductive PyError where
  | httpExc (status : Nat) (detail : String)
  | clientError (code message : String)
  | other (message : String)
  deriving DecidableEq

/-- Model of Python's `str(e)` for the exceptions above. Starlette's
`HTTPException.__str__` renders as `"{status_code}: {detail}"` (braces
here denote the interpolated fields). -/
def pyStr : PyError → String
  | .httpExc status detail => Nat.repr status ++ ": " ++ detail
  | .clientError code message =>
      "An error occurred (" ++ code ++ ") when calling the DetectLabels operation: " ++ message
  | .other message => message

/-- Model of Python's `str.startswith`: the characters of `pre` form a
prefix of the characters of `s`. -/
def startswith (s pre : String) : Bool := pre.data.isPrefixOf s.data

/-- The content-type guard of `detect_labels`:
`file.content_type and file.content_type.startswith('image/')`. -/
def contentTypeIsImage : Option String → Bool
  | none => false
  | some ct => startswith ct "image/"

/-- The per-label formatting of the response: name, confidence rounded to
two decimal places, and the names of the categories (empty list when the
`Categories` key is absent). -/
def formatLabel (l : RekLabel) : LabelOut :=
  { name := l.Name
    confidence := round2 l.Confidence
    categories := (l.Categories.getD []).map Category.Name }

/-- The body of the `try` block of `detect_labels`: read the bytes, check
the size bounds (raising `HTTPException(400, ...)` inside the block on
violation), call the vendor, and format the response. Returns the
normal-or-exceptional outcome together with the vendor requests issued. -/
def detectTryBody (vendor : VendorRequest → VendorResult) (file : UploadFile) :
    Except PyError DetectResponse × List VendorRequest :=
  let image_bytes := file.content
  if image_bytes.length > 5 * 1024 * 1024 then
    (.error (.httpExc 400 "Image file too large. Maximum size is 5MB."), [])
  else if image_bytes.length = 0 then
    (.error (.httpExc 400 "Empty file uploaded"), [])
  else
    let req : VendorRequest :=
      { ImageBytes := image_bytes, MaxLabels := 10, MinConfidence := 75 }
    match vendor req with
    | .ok vlabels =>
        let labels := vlabels.map formatLabel
        (.ok { success := true
               filename := file.filename
               labels_count := labels.length
               labels := labels }, [req])
    | .clientError code message => (.error (.clientError code message), [req])
    | .otherError message => (.error (.other message), [req])

/-- The `/detect` endpoint. Guards before the `try` block: the client
must be configured (else 500) and the content type must be an image
(else 400); these two propagate to the client as raised. Exceptions from
the `try` block hit `except ClientError` first (mapped to a 400 carrying
the vendor code and message) and otherwise `except Exception` (mapped to
a 500 wrapping `str(e)`), so an `HTTPException` raised inside the `try`
block is re-wrapped as a 500. -/
def detect_labels (configured : Bool) (vendor : VendorRequest → VendorResult)
    (file : UploadFile) : DetectTrace :=
  if !configured then
    { result := .httpError 500
        "AWS Rekognition client not configured. Please check environment variables."
      fileRead := false
      requests := [] }
  else if !(contentTypeIsImage file.content_type) then
    { result := .httpError 400 "File must be an image (JPEG, PNG, etc.)"
      fileRead := false
      requests := [] }
  else
    match detectTryBody vendor file with
    | (.ok body, reqs) => { result := .ok body, fileRead := true, requests := reqs }
    | (.error (.clientError code message), reqs) =>
        { result := .httpError 400
            ("AWS Rekognition Error [" ++ code ++ "]: " ++ message)
          fileRead := true
          requests := reqs }
    | (.error e, reqs) =>
        { result := .httpError 500 ("Internal server error: " ++ pyStr e)
          fileRead := true
          requests := reqs }

/-- Module-level initialization of the `rekognition` global: it is
non-None exactly when both credential environment variables are set and
the `boto3.client` construction did not raise. -/
def rekognition (envAccessKey envSecretKey clientInitOk : Bool) : Bool :=
  if envAccessKey && envSecretKey then clientInitOk else false

/-- The module-level state read by the endpoints: the `rekognition`
global and the two credential environment variables. No handler ever
writes any of these. -/
structure ServerState where
  rekognition : Bool
  envAccessKey : Bool
  envSecretKey : Bool
  deriving DecidableEq

/-- Response body of GET `/`. -/
structure RootResponse where
  message : String
  status : String
  aws_configured : Bool
  deriving DecidableEq

/-- Response body of GET `/health` (the nested `environment_vars` object
flattened into its two boolean fields). -/
structure HealthResponse where
  status : String
  aws_rekognition : String
  env_aws_access_key_id : Bool
  env_aws_secret_access_key : Bool
  deriving DecidableEq

/-- Response body of GET `/debug` (the nested object flattened). -/
structure DebugResponse where
  env_aws_access_key_id : String
  env_aws_secret_access_key : String
  aws_client_status : String
  region : String
  deriving DecidableEq

/-- The GET `/` endpoint. -/
def root (st : ServerState) : RootResponse :=
  { message := "FastAPI AWS Rekognition API is running"
    status := "healthy"
    aws_configured := st.rekognition }

/-- The GET `/health` endpoint. -/
def health_check (st : ServerState) : HealthResponse :=
  { status := "healthy"
    aws_rekognition := if st.rekognition then "configured" else "not configured"
    env_aws_access_key_id := st.envAccessKey
    env_aws_secret_access_key := st.envSecretKey }

/-- The GET `/debug` endpoint. -/
def debug_environment (st : ServerState) : DebugResponse :=
  { env_aws_access_key_id := if st.envAccessKey then "Set" else "Not Set"
    env_aws_secret_access_key := if st.envSecretKey then "Set" else "Not Set"
    aws_client_status := if st.rekognition then "Initialized" else "Not Initialized"
    region := "us-east-1" }

/-- An incoming request to the application. -/
inductive Request where
  | root
  | health
  | debug
  | detect (file : UploadFile)
  deriving DecidableEq

/-- The response to one request. -/
inductive AppResponse where
  | rootR (r : RootResponse)
  | healthR (r : HealthResponse)
  | debugR (r : DebugResponse)
  | detectR (t : DetectTrace)
  deriving DecidableEq

/-- Dispatch one request against the server state, returning the state
after the request together with the response. No handler in `main.py`
assigns to any module-level name, so each branch returns the state it
received. -/
def handle (vendor : VendorRequest → VendorResult) (st : ServerState) :
    Request → ServerState × AppResponse
  | .root => (st, .rootR (root st))
  | .health => (st, .healthR (health_check st))
  | .debug => (st, .debugR (debug_environment st))
  | .detect file => (st, .detectR (detect_labels st.rekognition vendor file))

/-- Sample vendor labels used by concrete witnesses. -/
def sampleLabels : List RekLabel :=
  [{ Name := "Dog", Confidence := 916734/10000, Categories := some [{ Name := "Animals and Pets" }] },
   { Name := "Pet", Confidence := 88, Categories := none }]

/-- A vendor oracle that always succeeds with `sampleLabels`. -/
def vendorOk : VendorRequest → VendorResult := fun _ => .ok sampleLabels

/-- A vendor oracle that always raises a `ClientError`. -/
def vendorClientErr : VendorRequest → VendorResult :=
  fun _ => .clientError "InvalidImageFormatException" "Request has invalid image format"

/-- A vendor oracle honouring `MinConfidence`: it returns the sample
labels whose confidence reaches the requested threshold. -/
def vendorHonest : VendorRequest → VendorResult :=
  fun r => .ok (sampleLabels.filter (fun l => decide (r.MinConfidence ≤ l.Confidence)))

/-- A small valid image upload. -/
def sampleFile : UploadFile :=
  { filename := "photo.jpg", content_type := some "image/jpeg", content := [137, 80, 78, 71] }

/-- An upload with a non-image content type. -/
def badTypeFile : UploadFile :=
  { filename := "doc.txt", content_type := some "text/plain", content := [104, 105] }

/-- An empty upload with an image content type. -/
def emptyFile : UploadFile :=
  { filename := "empty.jpg", content_type := some "image/jpeg", content := [] }

/-- An upload with an image content type one byte over the 5MB limit. -/
def bigFile : UploadFile :=
  { filename := "big.jpg", content_type := some "image/jpeg"
    content := List.replicate (5 * 1024 * 1024 + 1) 0 }

/-- The `/detect` response body produced for `sampleLabels`. -/
def sampleResp : DetectResponse :=
  { success := true
    filename := "photo.jpg"
    labels_count := 2
    labels := [{ name := "Dog", confidence := 9167/100, categories := ["Animals and Pets"] },
               { name := "Pet", confidence := 88, categories := [] }] }

/-- C1: for an upload whose content type starts with "image/", whose byte
length is between 1 and 5*1024*1024 inclusive, and for which the vendor
call succeeds, `/detect` returns success = true, the upload's filename,
one formatted entry per vendor label in the vendor's order (name,
confidence rounded to two decimal places, category names, empty when the
label has no Categories field), and labels_count. -/
theorem C1_detect_success (vendor : VendorRequest → VendorResult) (file : UploadFile)
    (ct : String) (hct : file.content_type = some ct)
    (himg : startswith ct "image/" = true)
    (hpos : 1 ≤ file.content.length)
    (hmax : file.content.length ≤ 5 * 1024 * 1024)
    (vlabels : List RekLabel)
    (hv : vendor { ImageBytes := file.content, MaxLabels := 10, MinConfidence := 75 }
            = .ok vlabels) :
    (detect_labels true vendor file).result =
      .ok { success := true
            filename := file.filename
            labels_count := (vlabels.map formatLabel).length
            labels := vlabels.map formatLabel } := by
  have hbig : ¬ (file.content.length > 5 * 1024 * 1024) := by omega
  have hzero : ¬ (file.content.length = 0) := by omega
  simp [detect_labels, contentTypeIsImage, hct, himg, detectTryBody, hbig, hzero, hv]

/-- Witness for C1 at a concrete upload and vendor oracle. -/
theorem C1_detect_success_witness :
    sampleFile.content_type = some "image/jpeg" ∧
    startswith "image/jpeg" "image/" = true ∧
    1 ≤ sampleFile.content.length ∧
    sampleFile.content.length ≤ 5 * 1024 * 1024 ∧
    vendorOk { ImageBytes := sampleFile.content, MaxLabels := 10, MinConfidence := 75 }
      = .ok sampleLabels ∧
    (detect_labels true vendorOk sampleFile).result =
      .ok { success := true
            filename := sampleFile.filename
            labels_count := (sampleLabels.map formatLabel).length
            labels := sampleLabels.map formatLabel } :=
  ⟨rfl, by decide, by decide, by decide, rfl,
   C1_detect_success vendorOk sampleFile "image/jpeg" rfl (by decide) (by decide)
     (by decide) sampleLabels rfl⟩

/-- C2: for an upload that passes validation, a vendor `ClientError` with
a code and a message yields an HTTPException of status 400 whose detail
contains that code and that message; no other status arises from a
vendor ClientError. -/
theorem C2_client_error (vendor : VendorRequest → VendorResult) (file : UploadFile)
    (ct : String) (hct : file.content_type = some ct)
    (himg : startswith ct "image/" = true)
    (hpos : 1 ≤ file.content.length)
    (hmax : file.content.length ≤ 5 * 1024 * 1024)
    (code message : String)
    (hv : vendor { ImageBytes := file.content, MaxLabels := 10, MinConfidence := 75 }
            = .clientError code message) :
    ∃ detail,
      (detect_labels true vendor file).result = .httpError 400 detail ∧
      (∃ p q, detail = p ++ code ++ q) ∧
      (∃ p q, detail = p ++ message ++ q) := by
  have hbig : ¬ (file.content.length > 5 * 1024 * 1024) := by omega
  have hzero : ¬ (file.content.length = 0) := by omega
  refine ⟨"AWS Rekognition Error [" ++ code ++ "]: " ++ message, ?_,
    ⟨"AWS Rekognition Error [", "]: " ++ message, by simp [String.append_assoc]⟩,
    ⟨"AWS Rekognition Error [" ++ code ++ "]: ", "", by simp⟩⟩
  simp [detect_labels, contentTypeIsImage, hct, himg, detectTryBody, hbig, hzero, hv]

/-- Witness for C2 at a concrete upload and failing vendor oracle. -/
theorem C2_client_error_witness :
    ∃ detail,
      (detect_labels true vendorClientErr sampleFile).result = .httpError 400 detail ∧
      (∃ p q, detail = p ++ "InvalidImageFormatException" ++ q) ∧
      (∃ p q, detail = p ++ "Request has invalid image format" ++ q) :=
  C2_client_error vendorClientErr sampleFile "image/jpeg" rfl (by decide) (by decide)
    (by decide) "InvalidImageFormatException" "Request has invalid image format" rfl

/-- C3: with the client configured, an upload whose content type is
missing or does not start with "image/" fails with status 400, the file
is never read and no vendor request is issued. -/
theorem C3_bad_content_type (vendor : VendorRequest → VendorResult) (file : UploadFile)
    (h : file.content_type = none ∨
         ∃ ct, file.content_type = some ct ∧ startswith ct "image/" = false) :
    detect_labels true vendor file =
      { result := .httpError 400 "File must be an image (JPEG, PNG, etc.)"
        fileRead := false
        requests := [] } := by
  rcases h with h | ⟨ct, hct, hcs⟩
  · simp [detect_labels, contentTypeIsImage, h]
  · simp [detect_labels, contentTypeIsImage, hct, hcs]

/-- Witness for C3 at a concrete text upload. -/
theorem C3_bad_content_type_witness :
    detect_labels true vendorOk badTypeFile =
      { result := .httpError 400 "File must be an image (JPEG, PNG, etc.)"
        fileRead := false
        requests := [] } :=
  C3_bad_content_type vendorOk badTypeFile (Or.inr ⟨"text/plain", rfl, by decide⟩)

/-- Helper: with the client configured, an image-typed upload over the
5MB limit produces a 500 whose detail wraps the stringified 400, after
reading the file and issuing no vendor request. -/
theorem oversized_trace (vendor : VendorRequest → VendorResult) (file : UploadFile)
    (ct : String) (hct : file.content_type = some ct)
    (himg : startswith ct "image/" = true)
    (hbig : file.content.length > 5 * 1024 * 1024) :
    detect_labels true vendor file =
      { result := .httpError 500
          "Internal server error: 400: Image file too large. Maximum size is 5MB."
        fileRead := true
        requests := [] } := by
  simp only [detect_labels, contentTypeIsImage, hct, himg, detectTryBody, hbig,
    Bool.not_true, Bool.false_eq_true, if_false, if_true, ite_true, ite_false,
    Bool.not_false]
  rfl

/-- Helper: with the client configured, an empty image-typed upload
produces a 500 whose detail wraps the stringified 400, after reading the
file and issuing no vendor request. -/
theorem empty_trace (vendor : VendorRequest → VendorResult) (file : UploadFile)
    (ct : String) (hct : file.content_type = some ct)
    (himg : startswith ct "image/" = true)
    (hzero : file.content.length = 0) :
    detect_labels true vendor file =
      { result := .httpError 500 "Internal server error: 400: Empty file uploaded"
        fileRead := true
        requests := [] } := by
  have hbig : ¬ (file.content.length > 5 * 1024 * 1024) := by omega
  simp only [detect_labels, contentTypeIsImage, hct, himg, detectTryBody, hbig, hzero,
    Bool.not_true, Bool.false_eq_true, if_false, if_true, ite_true, ite_false,
    Bool.not_false]
  rfl

/-- C4 as the code actually behaves: an image upload one byte over the
5MB limit is answered with status 500 (the 400 raised inside the `try`
block is re-wrapped by the generic handler), and no vendor request is
issued. -/
theorem C4_oversized_gets_500 :
    detect_labels true vendorOk bigFile =
      { result := .httpError 500
          "Internal server error: 400: Image file too large. Maximum size is 5MB."
        fileRead := true
        requests := [] } := by
  have h : bigFile.content.length > 5 * 1024 * 1024 := by
    show (List.replicate (5 * 1024 * 1024 + 1) 0).length > 5 * 1024 * 1024
    rw [List.length_replicate]
    omega
  exact oversized_trace vendorOk bigFile "image/jpeg" rfl (by decide) h

/-- C5: every request `/detect` issues to the vendor carries
MinConfidence = 75, and, for a vendor that honours the threshold, every
label of a successful response has an underlying confidence of at least
75 before rounding. -/
theorem C5_min_confidence (configured : Bool) (vendor : VendorRequest → VendorResult)
    (file : UploadFile)
    (hhonest : ∀ r ls, vendor r = .ok ls → ∀ l ∈ ls, r.MinConfidence ≤ l.Confidence) :
    (∀ r ∈ (detect_labels configured vendor file).requests, r.MinConfidence = 75) ∧
    (∀ resp, (detect_labels configured vendor file).result = .ok resp →
      ∀ lab ∈ resp.labels, ∃ c : ℚ, 75 ≤ c ∧ lab.confidence = round2 c) := by
  cases configured with
  | false => simp [detect_labels]
  | true =>
    cases hctv : contentTypeIsImage file.content_type with
    | false => simp [detect_labels, hctv]
    | true =>
      by_cases hbig : file.content.length > 5 * 1024 * 1024
      · simp [detect_labels, detectTryBody, hctv, hbig]
      · by_cases hzero : file.content.length = 0
        · simp [detect_labels, detectTryBody, hctv, hbig, hzero]
        · cases hv : vendor { ImageBytes := file.content, MaxLabels := 10, MinConfidence := 75 } with
          | ok ls =>
            constructor
            · intro r hr
              simp [detect_labels, detectTryBody, hctv, hbig, hzero, hv] at hr
              rw [hr]
            · intro resp hresp lab hlab
              simp [detect_labels, detectTryBody, hctv, hbig, hzero, hv] at hresp
              rw [← hresp] at hlab
              obtain ⟨l, hl, rfl⟩ := List.mem_map.mp hlab
              exact ⟨l.Confidence, hhonest _ ls hv l hl, rfl⟩
          | clientError code message =>
            simp [detect_labels, detectTryBody, hctv, hbig, hzero, hv]
          | otherError message =>
            simp [detect_labels, detectTryBody, hctv, hbig, hzero, hv]

/-- Witness for C5 at a concrete upload and threshold-honouring vendor. -/
theorem C5_min_confidence_witness :
    ({ ImageBytes := sampleFile.content, MaxLabels := 10, MinConfidence := 75 } :
        VendorRequest).MinConfidence = 75 ∧
    ∃ c : ℚ, 75 ≤ c ∧
      ({ name := "Dog", confidence := 9167/100, categories := ["Animals and Pets"] } :
          LabelOut).confidence = round2 c := by
  have hhonest : ∀ r ls, vendorHonest r = .ok ls →
      ∀ l ∈ ls, r.MinConfidence ≤ l.Confidence := by
    intro r ls h l hl
    injection h with h2
    subst h2
    exact of_decide_eq_true (List.mem_filter.mp hl).2
  have h := C5_min_confidence true vendorHonest sampleFile hhonest
  refine ⟨h.1 _ (List.Mem.head _), ?_⟩
  exact h.2 sampleResp (by with_unfolding_all rfl)
    { name := "Dog", confidence := 9167/100, categories := ["Animals and Pets"] }
    (List.Mem.head _)

/-- C6: for an upload that passes validation, exactly one vendor request
is issued and its Image.Bytes is exactly the byte string read from the
upload, unmodified. -/
theorem C6_exact_bytes (vendor : VendorRequest → VendorResult) (file : UploadFile)
    (ct : String) (hct : file.content_type = some ct)
    (himg : startswith ct "image/" = true)
    (hpos : 1 ≤ file.content.length)
    (hmax : file.content.length ≤ 5 * 1024 * 1024) :
    (detect_labels true vendor file).requests =
      [{ ImageBytes := file.content, MaxLabels := 10, MinConfidence := 75 }] := by
  have hbig : ¬ (file.content.length > 5 * 1024 * 1024) := by omega
  have hzero : ¬ (file.content.length = 0) := by omega
  cases hv : vendor { ImageBytes := file.content, MaxLabels := 10, MinConfidence := 75 } <;>
    simp [detect_labels, contentTypeIsImage, hct, himg, detectTryBody, hbig, hzero, hv]

/-- Witness for C6 at a concrete upload. -/
theorem C6_exact_bytes_witness :
    (detect_labels true vendorOk sampleFile).requests =
      [{ ImageBytes := sampleFile.content, MaxLabels := 10, MinConfidence := 75 }] :=
  C6_exact_bytes vendorOk sampleFile "image/jpeg" rfl (by decide) (by decide) (by decide)

/-- C7: an image-typed upload that is empty or over the 5MB limit is
answered with status 500, not 400: the 400 raised inside the `try` block
is re-wrapped by the generic handler into a 500 whose detail starts with
"Internal server error:" and embeds the original validation message. -/
theorem C7_validation_maps_to_500 (vendor : VendorRequest → VendorResult)
    (file : UploadFile) (ct : String) (hct : file.content_type = some ct)
    (himg : startswith ct "image/" = true)
    (hsize : file.content.length = 0 ∨ file.content.length > 5 * 1024 * 1024) :
    ∃ detail,
      detect_labels true vendor file =
        { result := .httpError 500 detail, fileRead := true, requests := [] } ∧
      (∃ rest, detail = "Internal server error: " ++ rest) ∧
      ((file.content.length > 5 * 1024 * 1024 ∧
          ∃ p q, detail = p ++ "Image file too large. Maximum size is 5MB." ++ q) ∨
       (file.content.length = 0 ∧
          ∃ p q, detail = p ++ "Empty file uploaded" ++ q)) := by
  rcases hsize with hzero | hbig
  · exact ⟨"Internal server error: 400: Empty file uploaded",
      empty_trace vendor file ct hct himg hzero,
      ⟨"400: Empty file uploaded", by decide⟩,
      Or.inr ⟨hzero, "Internal server error: 400: ", "", by decide⟩⟩
  · exact ⟨"Internal server error: 400: Image file too large. Maximum size is 5MB.",
      oversized_trace vendor file ct hct himg hbig,
      ⟨"400: Image file too large. Maximum size is 5MB.", by decide⟩,
      Or.inl ⟨hbig, "Internal server error: 400: ", "", by decide⟩⟩

/-- Witness for C7 at a concrete empty upload. -/
theorem C7_validation_maps_to_500_witness :
    ∃ detail,
      detect_labels true vendorOk emptyFile =
        { result := .httpError 500 detail, fileRead := true, requests := [] } ∧
      (∃ rest, detail = "Internal server error: " ++ rest) ∧
      ((emptyFile.content.length > 5 * 1024 * 1024 ∧
          ∃ p q, detail = p ++ "Image file too large. Maximum size is 5MB." ++ q) ∨
       (emptyFile.content.length = 0 ∧
          ∃ p q, detail = p ++ "Empty file uploaded" ++ q)) :=
  C7_validation_maps_to_500 vendorOk emptyFile "image/jpeg" rfl (by decide) (Or.inl rfl)

/-- C8: every handler leaves the server state unchanged, and in every
successful `/detect` response labels_count equals the length of the
labels list, which equals the number of labels the vendor returned; the
relation is therefore independent of prior requests. -/
theorem C8_stateless_count (vendor : VendorRequest → VendorResult)
    (st : ServerState) (req : Request) :
    (handle vendor st req).1 = st ∧
    (∀ file resp, req = .detect file →
      (detect_labels st.rekognition vendor file).result = .ok resp →
      resp.labels_count = resp.labels.length ∧
      ∀ ls, vendor { ImageBytes := file.content, MaxLabels := 10, MinConfidence := 75 }
              = .ok ls →
        resp.labels.length = ls.length) := by
  constructor
  · cases req <;> rfl
  · rintro file resp rfl hres
    cases hcfg : st.rekognition with
    | false => rw [hcfg] at hres; simp [detect_labels] at hres
    | true =>
      rw [hcfg] at hres
      cases hctv : contentTypeIsImage file.content_type with
      | false => simp [detect_labels, hctv] at hres
      | true =>
        by_cases hbig : file.content.length > 5 * 1024 * 1024
        · simp [detect_labels, detectTryBody, hctv, hbig] at hres
        · by_cases hzero : file.content.length = 0
          · simp [detect_labels, detectTryBody, hctv, hbig, hzero] at hres
          · cases hv : vendor { ImageBytes := file.content, MaxLabels := 10, MinConfidence := 75 } with
            | ok ls0 =>
              simp [detect_labels, detectTryBody, hctv, hbig, hzero, hv] at hres
              subst hres
              refine ⟨by simp, ?_⟩
              intro ls hls
              injection hls with h2
              subst h2
              simp
            | clientError code message =>
              simp [detect_labels, detectTryBody, hctv, hbig, hzero, hv] at hres
            | otherError message =>
              simp [detect_labels, detectTryBody, hctv, hbig, hzero, hv] at hres

/-- Witness for C8 at a concrete state, upload and vendor oracle. -/
theorem C8_stateless_count_witness :
    (handle vendorOk { rekognition := true, envAccessKey := true, envSecretKey := true }
        (.detect sampleFile)).1 =
      { rekognition := true, envAccessKey := true, envSecretKey := true } ∧
    sampleResp.labels_count = sampleResp.labels.length ∧
    sampleResp.labels.length = sampleLabels.length := by
  have h := C8_stateless_count vendorOk
    { rekognition := true, envAccessKey := true, envSecretKey := true } (.detect sampleFile)
  have h2 := h.2 sampleFile sampleResp rfl (by with_unfolding_all rfl)
  exact ⟨h.1, h2.1, h2.2 sampleLabels rfl⟩

/-- C9: when the client is unconfigured (a credential variable unset or
client construction failed), `/detect` fails with status 500 and the
fixed detail, without reading the file and without any vendor request,
while `/` and `/health` still succeed and report the unconfigured
status. -/
theorem C9_unconfigured (envAccessKey envSecretKey clientInitOk : Bool)
    (h : envAccessKey = false ∨ envSecretKey = false ∨ clientInitOk = false)
    (vendor : VendorRequest → VendorResult) (file : UploadFile) :
    rekognition envAccessKey envSecretKey clientInitOk = false ∧
    detect_labels (rekognition envAccessKey envSecretKey clientInitOk) vendor file =
      { result := .httpError 500
          "AWS Rekognition client not configured. Please check environment variables."
        fileRead := false
        requests := [] } ∧
    root { rekognition := rekognition envAccessKey envSecretKey clientInitOk,
           envAccessKey := envAccessKey, envSecretKey := envSecretKey } =
      { message := "FastAPI AWS Rekognition API is running", status := "healthy",
        aws_configured := false } ∧
    health_check { rekognition := rekognition envAccessKey envSecretKey clientInitOk,
                   envAccessKey := envAccessKey, envSecretKey := envSecretKey } =
      { status := "healthy", aws_rekognition := "not configured",
        env_aws_access_key_id := envAccessKey,
        env_aws_secret_access_key := envSecretKey } := by
  have hoff : rekognition envAccessKey envSecretKey clientInitOk = false := by
    rcases h with h | h | h <;> subst h <;> simp [rekognition]
  refine ⟨hoff, ?_, ?_, ?_⟩ <;> rw [hoff] <;> simp [detect_labels, root, health_check]

/-- Witness for C9 with the access-key variable unset. -/
theorem C9_unconfigured_witness :
    rekognition false true true = false ∧
    detect_labels (rekognition false true true) vendorOk sampleFile =
      { result := .httpError 500
          "AWS Rekognition client not configured. Please check environment variables."
        fileRead := false
        requests := [] } ∧
    root { rekognition := rekognition false true true,
           envAccessKey := false, envSecretKey := true } =
      { message := "FastAPI AWS Rekognition API is running", status := "healthy",
        aws_configured := false } ∧
    health_check { rekognition := rekognition false true true,
                   envAccessKey := false, envSecretKey := true } =
      { status := "healthy", aws_rekognition := "not configured",
        env_aws_access_key_id := false, env_aws_secret_access_key := true } :=
  C9_unconfigured false true true (Or.inl rfl) vendorOk sampleFile

end Rekog
